import Mathlib

/-
Verification development for the pyElli repository snapshot consisting of
`src/berreman4x4/plotter.py` (structure profile and plot utility) and
`examples/Bragg-mirror/validation-Bragg.py` (analytic Bragg-mirror
validation script).

Numeric arrays of the Python code are embedded as functions over exact
real and complex numbers; the per-wavelength vectorized operations of
numpy become pointwise definitions.  The external solver's material,
layer and structure classes (berreman4x4 proper) are not part of the
repository; they are modelled from the interface the two source files
use, as the specification describes it.
-/

/-- Permittivity tensor: a 3 by 3 complex matrix. -/
abbrev Tensor := Matrix (Fin 3) (Fin 3) ℂ

/-- Modelled from the spec: an external-solver material, exposed to this
repository only through its getTensor(lbda, unit) capability. -/
structure Material where
  getTensor : ℝ → String → Tensor

/-- Modelled from the spec: an external-solver layer, a material paired
with a physical thickness. -/
structure Layer where
  material : Material
  h : ℝ

/-- One element of a structure's layer list: either a single layer or a
repeated layer group (the two spacer parameters of the external
RepeatedLayers are zero in the example and are not modelled). -/
inductive LayerElement where
  | single (L : Layer)
  | repeated (layers : List Layer) (reps : ℕ)

/-- Profile entry contributed by a single finite layer: its thickness
(as an extended real, so that half-space entries can be infinite) and
its material's permittivity tensor. -/
def Layer.profileEntry (L : Layer) (lbda : ℝ) (unit : String) : EReal × Tensor :=
  ((L.h : EReal), L.material.getTensor lbda unit)

/-- Modelled from the spec: each layer or layer group expands itself
into its own permittivity profile; a repeated group with reps periods
concatenates reps copies of its layer list's entries. -/
def LayerElement.getPermittivityProfile : LayerElement → ℝ → String → List (EReal × Tensor)
  | LayerElement.single L, lbda, unit => [L.profileEntry lbda unit]
  | LayerElement.repeated ls reps, lbda, unit =>
      (List.replicate reps (ls.map (fun L => L.profileEntry lbda unit))).flatten

/-- Number of finite layers a layer element expands to. -/
def LayerElement.numLayers : LayerElement → ℕ
  | LayerElement.single _ => 1
  | LayerElement.repeated ls reps => reps * ls.length

/-- Modelled from the spec: a semi-infinite half space bounding the
stack, wrapping its material. -/
structure HalfSpace where
  material : Material

/-- Modelled from the spec: an external-solver structure, as the plotter
accesses it: a front half-space, an ordered list of layer elements, and
a back half-space. -/
structure Structure where
  frontHalfSpace : HalfSpace
  layers : List LayerElement
  backHalfSpace : HalfSpace

/-- Total number of finite layers of a structure. -/
def Structure.numLayers (s : Structure) : ℕ :=
  (s.layers.map LayerElement.numLayers).sum

/-- Embedding of plotter.getPermittivityProfile: front half-space entry
with infinite thickness, the concatenated per-element profiles, then
the back half-space entry with infinite thickness. -/
def getPermittivityProfile (s : Structure) (lbda : ℝ) (unit : String) : List (EReal × Tensor) :=
  let layers := (s.layers.map (fun L => L.getPermittivityProfile lbda unit)).flatten
  let front : EReal × Tensor := ((⊤ : EReal), s.frontHalfSpace.material.getTensor lbda unit)
  let back : EReal × Tensor := ((⊤ : EReal), s.backHalfSpace.material.getTensor lbda unit)
  [front] ++ layers ++ [back]

/-- Style of one plotted series in the validation chart: a plain line
plot, or point markers (the numpy format string "x"). -/
inductive PlotStyle where
  | line
  | markerX
deriving DecidableEq

/-- One series of the validation script's comparison chart: the name of
the x data, the name of the y data, and the style it is drawn with. -/
structure SeriesPlot where
  x : String
  y : String
  style : PlotStyle
deriving DecidableEq

/-- Embedding of the plotting section of validation-Bragg.py: the single
axes receives two plot calls, lines1 = ax.plot(lbda_list, d) with d
stacking the solver results R_ss_0, R_ss, R_pp (no format string, hence
line style), then lines2 = ax.plot(lbda_list, d, (an x marker format))
with d stacking the analytic results R_th_ss_0, R_th_ss, R_th_pp. -/
def validationChartSeries : List SeriesPlot :=
  [⟨"lbda_list", "R_ss_0", PlotStyle.line⟩,
   ⟨"lbda_list", "R_ss", PlotStyle.line⟩,
   ⟨"lbda_list", "R_pp", PlotStyle.line⟩,
   ⟨"lbda_list", "R_th_ss_0", PlotStyle.markerX⟩,
   ⟨"lbda_list", "R_th_ss", PlotStyle.markerX⟩,
   ⟨"lbda_list", "R_th_pp", PlotStyle.markerX⟩]

/-- Number of recursive calls performed by the recursion of U, mirrored
on the same fuel: fuel counts down while the interface index counts up,
and a call at interface k with k + 1 = N makes no further call. -/
def Ucalls (N : ℕ) : ℕ → ℕ → ℕ
  | 0, _ => 0
  | fuel + 1, k => if k + 1 = N then 0 else Ucalls N fuel (k + 1) + 1

noncomputable section

/-- Principal complex square root, z to the power one half, the branch
numpy.lib.scimath.sqrt and np.sqrt use on complex input: the result has
nonnegative real part. -/
def csqrt (z : ℂ) : ℂ := z ^ ((2 : ℂ)⁻¹)

/-- Default direction of evaluation of the refractive index: the first
Cartesian axis, as in berreman4x4.math.e_x. -/
def e_x : Fin 3 → ℂ := fun i => if i = 0 then 1 else 0

/-- Scalar obtained by projecting a permittivity tensor on a direction
vector: the quadratic form vᵀ ε v of the plotter's v.T * eps * v. -/
def quadForm (v : Fin 3 → ℂ) (eps : Tensor) : ℂ :=
  Matrix.dotProduct v (Matrix.mulVec eps v)

/-- Embedding of plotter.getIndexProfile: each tensor of the
permittivity profile is replaced by the principal square root of its
projection on the direction vector (default first Cartesian axis). -/
def getIndexProfile (s : Structure) (lbda : ℝ) (unit : String) (v : Fin 3 → ℂ := e_x) :
    List (EReal × ℂ) :=
  (getPermittivityProfile s lbda unit).map (fun he => (he.1, csqrt (quadForm v he.2)))

/-- Running sums of a list starting from an accumulator, the embedding
of np.cumsum on the thickness array. -/
def cumsumFrom (acc : ℝ) : List ℝ → List ℝ
  | [] => []
  | x :: xs => (acc + x) :: cumsumFrom (acc + x) xs

/-- Minimum of a list of reals, the embedding of z.min() on the
(always nonempty) depth coordinate array. -/
def npMin : List ℝ → ℝ
  | [] => 0
  | x :: xs => xs.foldl min x

/-- Maximum of a list of reals, the embedding of z.max(). -/
def npMax : List ℝ → ℝ
  | [] => 0
  | x :: xs => xs.foldl max x

/-- Finite thicknesses of the index profile: all entries except the
first and last (the h[1:-1] slice of drawStructure), read back as real
numbers. -/
def finiteThicknesses (s : Structure) (lbda : ℝ) (unit : String) : List ℝ :=
  ((((getIndexProfile s lbda unit).map Prod.fst).drop 1).dropLast).map EReal.toReal

/-- Total depth of the finite stack: the sum of the finite layer
thicknesses. -/
def stackDepth (s : Structure) (lbda : ℝ) (unit : String) : ℝ :=
  (finiteThicknesses s lbda unit).sum

/-- Depth coordinates of the layer interfaces: np.hstack((0., np.cumsum(h[1:-1]))). -/
def zLayers (s : Structure) (lbda : ℝ) (unit : String) : List ℝ :=
  0 :: cumsumFrom 0 (finiteThicknesses s lbda unit)

/-- Depth of the last interface, z_layers[-1]. -/
def zMax (s : Structure) (lbda : ℝ) (unit : String) : ℝ :=
  (zLayers s lbda unit).getLastD 0

/-- Margin added on each side of the stack: the margin fraction times
the total depth, or the fixed minimal margin 1e-6 when the depth is
exactly zero. -/
def zMarginOf (margin zmax : ℝ) : ℝ :=
  if zmax ≠ 0 then margin * zmax else 1e-6

/-- Full depth coordinate array of drawStructure:
np.hstack((-z_margin, z_layers, z_max + z_margin)). -/
def zCoordinates (s : Structure) (lbda : ℝ) (unit : String) (margin : ℝ) : List ℝ :=
  -(zMarginOf margin (zMax s lbda unit)) ::
    (zLayers s lbda unit ++ [zMax s lbda unit + zMarginOf margin (zMax s lbda unit)])

/-- Model of a matplotlib Axes handle: only the geometry the plotter
sets explicitly is kept, namely the x axis limits and the unit label. -/
structure Axes where
  xlim : ℝ × ℝ
  unitLabel : String

/-- Embedding of plotter._drawStructureGraph: the x limits are set to
the minimum and maximum of the depth coordinate array. -/
def drawStructureGraph (_s : Structure) (z : List ℝ) (_n : List ℂ) (unit : String) : Axes :=
  { xlim := (npMin z, npMax z), unitLabel := unit }

/-- Embedding of plotter._drawStructureSection: the x limits are set the
same way as in the graph style. -/
def drawStructureSection (_s : Structure) (z : List ℝ) (_n : List ℂ) (unit : String) : Axes :=
  { xlim := (npMin z, npMax z), unitLabel := unit }

/-- Embedding of plotter.drawStructure: build the index profile, derive
the depth coordinates with the margin rule, then dispatch on the method
string; an unrecognized method yields no axes. -/
def drawStructure (s : Structure) (lbda : ℝ := 1000) (unit : String := "nm")
    (method : String := "graph") (margin : ℝ := 0.15) : Option Axes :=
  let profile := getIndexProfile s lbda unit
  let ns := profile.map Prod.snd
  let z := zCoordinates s lbda unit margin
  if method = "graph" then some (drawStructureGraph s z ns unit)
  else if method = "section" then some (drawStructureSection s z ns unit)
  else none

/-- Tangential wavevector component of ReflectionCoeff:
Kx = n[0] * sin(incidence_angle). -/
def Kx (n : ℕ → ℂ) (incidence_angle : ℝ) : ℂ :=
  n 0 * (Real.sin incidence_angle : ℂ)

/-- Normal wavevector component per interface:
kz = 2 pi / lbda * sqrt(n ** 2 - Kx ** 2). -/
def kz (n : ℕ → ℂ) (incidence_angle lbda : ℝ) (p : ℕ) : ℂ :=
  ((2 * Real.pi / lbda : ℝ) : ℂ) * csqrt ((n p) ^ 2 - (Kx n incidence_angle) ^ 2)

/-- Single-interface reflection coefficient for polarisation s:
r_ab = (-np.diff(kz, axis=0)) / (kz[:-1] + kz[1:]). -/
def r_ab_s (kzv : ℕ → ℂ) (p : ℕ) : ℂ :=
  (-(kzv (p + 1) - kzv p)) / (kzv p + kzv (p + 1))

/-- Single-interface reflection coefficient for polarisation p:
r_ab = (kz[:-1]*n[1:]**2 - kz[1:]*n[:-1]**2) / (kz[:-1]*n[1:]**2 + kz[1:]*n[:-1]**2). -/
def r_ab_p (n kzv : ℕ → ℂ) (p : ℕ) : ℂ :=
  (kzv p * (n (p + 1)) ^ 2 - kzv (p + 1) * (n p) ^ 2) /
    (kzv p * (n (p + 1)) ^ 2 + kzv (p + 1) * (n p) ^ 2)

/-- Recursion underlying the local function U of ReflectionCoeff, with
an explicit fuel argument serving as termination measure: with
p = k + 1, the result is r_ab[N-1] when p = N and otherwise composes
r_ab[p-1] = r_ab[k] with the deeper coefficient through the phase
factor exp(2i kz[p] d[p]).  The fuel-zero branch is never reached when
the recursion is started with fuel N - k and k < N. -/
def Uaux (r_ab kzv dv : ℕ → ℂ) (N : ℕ) : ℕ → ℕ → ℂ
  | 0, _ => r_ab (N - 1)
  | fuel + 1, k =>
      if k + 1 = N then r_ab (N - 1)
      else
        (r_ab k + Uaux r_ab kzv dv N fuel (k + 1) *
            Complex.exp (2 * Complex.I * kzv (k + 1) * dv (k + 1))) /
          (1 + r_ab k * Uaux r_ab kzv dv N fuel (k + 1) *
            Complex.exp (2 * Complex.I * kzv (k + 1) * dv (k + 1)))

/-- Recursive total reflection coefficient U(k) of the analytic
calculation, evaluated with fuel N - k. -/
def U (r_ab kzv dv : ℕ → ℂ) (N k : ℕ) : ℂ :=
  Uaux r_ab kzv dv N (N - k) k

/-- Embedding of ReflectionCoeff of validation-Bragg.py, per wavelength:
selects the single-interface coefficient array from the polarisation
string and returns U(0); a polarisation other than s and p assigns no
coefficient array, so no result is produced (the Python NameError that
then escapes is modelled by the absent value). -/
def ReflectionCoeff (N : ℕ) (n : ℕ → ℂ) (d : ℕ → ℝ)
    (incidence_angle : ℝ := 0) (lbda : ℝ := 1550) (polarisation : String := "s") : Option ℂ :=
  let kzv : ℕ → ℂ := kz n incidence_angle lbda
  let dv : ℕ → ℂ := fun p => ((d p : ℝ) : ℂ)
  if polarisation = "s" then some (U (r_ab_s kzv) kzv dv N 0)
  else if polarisation = "p" then some (U (r_ab_p n kzv) kzv dv N 0)
  else none

/-- Sample material whose tensor is the identity at every wavelength. -/
def sampleMaterial : Material := ⟨fun _ _ => (1 : Tensor)⟩

/-- Structure with only the two half-spaces and no finite layer. -/
def bareStructure : Structure := ⟨⟨sampleMaterial⟩, [], ⟨sampleMaterial⟩⟩

/-- Structure with a single finite layer of unit thickness. -/
def oneLayerStructure : Structure :=
  ⟨⟨sampleMaterial⟩, [LayerElement.single ⟨sampleMaterial, 1⟩], ⟨sampleMaterial⟩⟩

/-- Isotropic material of index 2: its tensor is 2 squared times the
identity. -/
def matIndexTwo : Material := ⟨fun _ _ => ((2 : ℂ) ^ 2) • (1 : Tensor)⟩

/-- Structure whose front half-space material is matIndexTwo. -/
def structIndexTwo : Structure := ⟨⟨matIndexTwo⟩, [], ⟨matIndexTwo⟩⟩

/-- Isotropic material of index -1: its tensor is (-1) squared times
the identity, that is, the identity. -/
def matIndexNegOne : Material := ⟨fun _ _ => ((-1 : ℂ) ^ 2) • (1 : Tensor)⟩

/-- Structure whose front half-space material is matIndexNegOne. -/
def structIndexNegOne : Structure := ⟨⟨matIndexNegOne⟩, [], ⟨matIndexNegOne⟩⟩

/-- Unfolding equation of Uaux at positive fuel. -/
theorem Uaux_succ (r_ab kzv dv : ℕ → ℂ) (N fuel k : ℕ) :
    Uaux r_ab kzv dv N (fuel + 1) k =
      if k + 1 = N then r_ab (N - 1)
      else
        (r_ab k + Uaux r_ab kzv dv N fuel (k + 1) *
            Complex.exp (2 * Complex.I * kzv (k + 1) * dv (k + 1))) /
          (1 + r_ab k * Uaux r_ab kzv dv N fuel (k + 1) *
            Complex.exp (2 * Complex.I * kzv (k + 1) * dv (k + 1))) := rfl

/-- Unfolding equation of Ucalls at positive fuel. -/
theorem Ucalls_succ (N fuel k : ℕ) :
    Ucalls N (fuel + 1) k = if k + 1 = N then 0 else Ucalls N fuel (k + 1) + 1 := rfl

/-- Each layer element's profile has one entry per finite layer it
expands to. -/
theorem LayerElement.length_profile (e : LayerElement) (lbda : ℝ) (unit : String) :
    (e.getPermittivityProfile lbda unit).length = e.numLayers := by
  cases e with
  | single L => rfl
  | repeated ls reps =>
      simp [LayerElement.getPermittivityProfile, LayerElement.numLayers,
        List.length_flatten, Function.comp, mul_comm]

/-- A list of layer elements expands to one profile entry per finite
layer. -/
theorem layersProfile_length_aux (ls : List LayerElement) (lbda : ℝ) (unit : String) :
    ((ls.map (fun L => L.getPermittivityProfile lbda unit)).flatten).length =
      (ls.map LayerElement.numLayers).sum := by
  induction ls with
  | nil => rfl
  | cons e es ih =>
      simp only [List.map_cons, List.flatten_cons, List.length_append, ih,
        LayerElement.length_profile, List.sum_cons]

/-- The concatenated per-element profiles have one entry per finite
layer of the structure. -/
theorem layersProfile_length (s : Structure) (lbda : ℝ) (unit : String) :
    ((s.layers.map (fun L => L.getPermittivityProfile lbda unit)).flatten).length =
      s.numLayers :=
  layersProfile_length_aux s.layers lbda unit

/-- Last running sum equals the accumulator plus the list sum. -/
theorem cumsumFrom_getLastD (a : ℝ) (l : List ℝ) :
    (cumsumFrom a l).getLastD a = a + l.sum := by
  induction l generalizing a with
  | nil => simp [cumsumFrom]
  | cons x xs ih =>
      simp only [cumsumFrom, List.getLastD_cons, ih (a + x), List.sum_cons]
      ring

/-- Projection of a tensor on the first Cartesian axis picks out its
(0,0) entry. -/
theorem quadForm_e_x (eps : Tensor) : quadForm e_x eps = eps 0 0 := by
  simp [quadForm, e_x, Matrix.dotProduct, Matrix.mulVec, Fin.sum_univ_three]

/-- Principal complex square root of a square recovers the base when the
base lies in the principal branch: positive real part, or zero real part
with nonnegative imaginary part. -/
theorem csqrt_sq (z : ℂ) (h : 0 < z.re ∨ (z.re = 0 ∧ 0 ≤ z.im)) :
    csqrt (z ^ 2) = z := by
  have hlt : -(Real.pi / 2) < z.arg := by
    refine Complex.neg_pi_div_two_lt_arg_iff.2 ?_
    rcases h with h | ⟨h1, h2⟩
    · exact Or.inl h
    · exact Or.inr h2
  have hle : z.arg ≤ Real.pi / 2 := by
    refine Complex.arg_le_pi_div_two_iff.2 (Or.inl ?_)
    rcases h with h | ⟨h1, _⟩
    · exact h.le
    · exact h1.ge
  exact Complex.pow_cpow_ofNat_inv hlt hle

/-- C4: getPermittivityProfile returns exactly numLayers + 2 entries;
the first is the front half-space and the last the back half-space, both
with infinite thickness, and the entries in between are the concatenated
per-layer profiles in order. -/
theorem claim_C4_profile_shape (s : Structure) (lbda : ℝ) (unit : String) :
    (getPermittivityProfile s lbda unit).length = s.numLayers + 2 ∧
    (getPermittivityProfile s lbda unit).head? =
      some ((⊤ : EReal), s.frontHalfSpace.material.getTensor lbda unit) ∧
    (getPermittivityProfile s lbda unit).getLast? =
      some ((⊤ : EReal), s.backHalfSpace.material.getTensor lbda unit) ∧
    getPermittivityProfile s lbda unit =
      [((⊤ : EReal), s.frontHalfSpace.material.getTensor lbda unit)] ++
        (s.layers.map (fun L => L.getPermittivityProfile lbda unit)).flatten ++
        [((⊤ : EReal), s.backHalfSpace.material.getTensor lbda unit)] := by
  refine ⟨?_, rfl, ?_, rfl⟩
  · simp only [getPermittivityProfile, List.append_assoc, List.length_append,
      List.length_cons, List.length_nil, layersProfile_length s lbda unit]
    omega
  · show (((⊤ : EReal), s.frontHalfSpace.material.getTensor lbda unit) ::
      ((s.layers.map (fun L => L.getPermittivityProfile lbda unit)).flatten ++
      [((⊤ : EReal), s.backHalfSpace.material.getTensor lbda unit)])).getLast? = _
    rw [← List.cons_append]
    exact List.getLast?_concat _

/-- C5 (amended): an entry of the permittivity profile whose tensor is
the square of an index times the identity is mapped by getIndexProfile,
with the default direction vector, to exactly that index, provided the
index lies in the principal branch of the square root: positive real
part, or zero real part with nonnegative imaginary part. -/
theorem claim_C5_index_profile_isotropic (s : Structure) (lbda : ℝ) (unit : String)
    (i : ℕ) (h : EReal) (nidx : ℂ)
    (hEntry : (getPermittivityProfile s lbda unit)[i]? = some (h, nidx ^ 2 • (1 : Tensor)))
    (hBranch : 0 < nidx.re ∨ (nidx.re = 0 ∧ 0 ≤ nidx.im)) :
    (getIndexProfile s lbda unit)[i]? = some (h, nidx) := by
  rw [getIndexProfile, List.getElem?_map, hEntry]
  simp [quadForm_e_x, Matrix.smul_apply, Matrix.one_apply_eq, smul_eq_mul, mul_one,
    csqrt_sq nidx hBranch]

/-- Witness for C5 at the isotropic index-2 material placed in the front
half-space. -/
theorem claim_C5_index_profile_isotropic_witness :
    (getIndexProfile structIndexTwo 1550 ("nm"))[0]? = some ((⊤ : EReal), (2 : ℂ)) :=
  claim_C5_index_profile_isotropic structIndexTwo 1550 ("nm") 0 (⊤ : EReal) 2
    (by rfl) (by norm_num)

/-- C5 counterexample: for the isotropic material of index -1 the tensor
is the square of the index times the identity, yet getIndexProfile
returns 1, not the material's own index -1. -/
theorem claim_C5_counterexample :
    matIndexNegOne.getTensor 1550 ("nm") = ((-1 : ℂ) ^ 2) • (1 : Tensor) ∧
    (getIndexProfile structIndexNegOne 1550 ("nm"))[0]? = some ((⊤ : EReal), (1 : ℂ)) ∧
    (getIndexProfile structIndexNegOne 1550 ("nm"))[0]? ≠ some ((⊤ : EReal), (-1 : ℂ)) := by
  have hval : (getIndexProfile structIndexNegOne 1550 ("nm"))[0]? =
      some ((⊤ : EReal), (1 : ℂ)) := by
    rw [getIndexProfile, List.getElem?_map,
      show (getPermittivityProfile structIndexNegOne 1550 ("nm"))[0]? =
        some ((⊤ : EReal), ((-1 : ℂ) ^ 2) • (1 : Tensor)) from rfl]
    simp [quadForm_e_x, Matrix.smul_apply, Matrix.one_apply_eq, smul_eq_mul, mul_one]
    rw [csqrt, Complex.one_cpow]
  refine ⟨rfl, hval, ?_⟩
  rw [hval]
  intro hc
  have h2 : (1 : ℂ) = -1 := congrArg (fun o => (Option.getD o ((⊤ : EReal), (0 : ℂ))).2) hc
  exact (by norm_num : (1 : ℂ) ≠ -1) h2

/-- C1: the recursive reflection coefficient satisfies exactly the
claimed recursion (base case at the last interface, Airy composition
with the phase factor through layer k + 1 otherwise), and
ReflectionCoeff returns U(0) built on the single-interface coefficients
of the requested polarisation. -/
theorem claim_C1_recursive_reflection (r_ab kzv dv n : ℕ → ℂ) (d : ℕ → ℝ)
    (incidence_angle lbda : ℝ) (N k : ℕ) (hk : k < N) :
    U r_ab kzv dv N k =
      (if k + 1 = N then r_ab (N - 1)
       else
        (r_ab k + U r_ab kzv dv N (k + 1) *
            Complex.exp (2 * Complex.I * kzv (k + 1) * dv (k + 1))) /
          (1 + r_ab k * U r_ab kzv dv N (k + 1) *
            Complex.exp (2 * Complex.I * kzv (k + 1) * dv (k + 1)))) ∧
    ReflectionCoeff N n d incidence_angle lbda ("s") =
      some (U (r_ab_s (kz n incidence_angle lbda)) (kz n incidence_angle lbda)
        (fun p => ((d p : ℝ) : ℂ)) N 0) ∧
    ReflectionCoeff N n d incidence_angle lbda ("p") =
      some (U (r_ab_p n (kz n incidence_angle lbda)) (kz n incidence_angle lbda)
        (fun p => ((d p : ℝ) : ℂ)) N 0) := by
  refine ⟨?_, rfl, rfl⟩
  by_cases hN : k + 1 = N
  · rw [if_pos hN, U, show N - k = 0 + 1 by omega, Uaux_succ, if_pos hN]
  · rw [if_neg hN, U, show N - k = (N - (k + 1)) + 1 by omega, Uaux_succ, if_neg hN]
    rfl

/-- Witness for C1 at a two-interface stack with all-zero coefficient
arrays. -/
theorem claim_C1_recursive_reflection_witness :
    U (fun _ => (0 : ℂ)) (fun _ => (0 : ℂ)) (fun _ => (0 : ℂ)) 2 0 =
      (if 0 + 1 = 2 then (fun _ : ℕ => (0 : ℂ)) (2 - 1)
       else
        ((fun _ : ℕ => (0 : ℂ)) 0 +
            U (fun _ => (0 : ℂ)) (fun _ => (0 : ℂ)) (fun _ => (0 : ℂ)) 2 (0 + 1) *
            Complex.exp (2 * Complex.I * (fun _ : ℕ => (0 : ℂ)) (0 + 1) *
              (fun _ : ℕ => (0 : ℂ)) (0 + 1))) /
          (1 + (fun _ : ℕ => (0 : ℂ)) 0 *
            U (fun _ => (0 : ℂ)) (fun _ => (0 : ℂ)) (fun _ => (0 : ℂ)) 2 (0 + 1) *
            Complex.exp (2 * Complex.I * (fun _ : ℕ => (0 : ℂ)) (0 + 1) *
              (fun _ : ℕ => (0 : ℂ)) (0 + 1)))) ∧
    ReflectionCoeff 2 (fun _ => (0 : ℂ)) (fun _ => (0 : ℝ)) 0 1550 ("s") =
      some (U (r_ab_s (kz (fun _ => (0 : ℂ)) 0 1550)) (kz (fun _ => (0 : ℂ)) 0 1550)
        (fun p => (((fun _ : ℕ => (0 : ℝ)) p : ℝ) : ℂ)) 2 0) ∧
    ReflectionCoeff 2 (fun _ => (0 : ℂ)) (fun _ => (0 : ℝ)) 0 1550 ("p") =
      some (U (r_ab_p (fun _ => (0 : ℂ)) (kz (fun _ => (0 : ℂ)) 0 1550))
        (kz (fun _ => (0 : ℂ)) 0 1550)
        (fun p => (((fun _ : ℕ => (0 : ℝ)) p : ℝ) : ℂ)) 2 0) :=
  claim_C1_recursive_reflection (fun _ => (0 : ℂ)) (fun _ => (0 : ℂ)) (fun _ => (0 : ℂ))
    (fun _ => (0 : ℂ)) (fun _ => (0 : ℝ)) 0 1550 2 0 (by decide)

/-- C10: the recursion of U terminates: any fuel at least the measure
N - k computes the same value as U itself, and the number of recursive
calls made from interface k is exactly N - 1 - k. -/
theorem claim_C10_recursion_terminates (r_ab kzv dv : ℕ → ℂ) (N k fuel : ℕ)
    (hk : k < N) (hfuel : N - k ≤ fuel) :
    Uaux r_ab kzv dv N fuel k = U r_ab kzv dv N k ∧ Ucalls N fuel k = N - 1 - k := by
  induction fuel generalizing k with
  | zero => exact absurd hfuel (by omega)
  | succ fuel ih =>
      by_cases hN : k + 1 = N
      · constructor
        · rw [Uaux_succ, if_pos hN, U, show N - k = 0 + 1 by omega, Uaux_succ, if_pos hN]
        · rw [Ucalls_succ, if_pos hN]
          omega
      · have hk1 : k + 1 < N := by omega
        have hf1 : N - (k + 1) ≤ fuel := by omega
        obtain ⟨ih1, ih2⟩ := ih (k + 1) hk1 hf1
        constructor
        · rw [Uaux_succ, if_neg hN, ih1]
          show _ = Uaux r_ab kzv dv N (N - k) k
          rw [show N - k = (N - (k + 1)) + 1 by omega, Uaux_succ, if_neg hN]
          rfl
        · rw [Ucalls_succ, if_neg hN, ih2]
          omega

/-- Witness for C10 at N = 2, k = 0 with generous fuel. -/
theorem claim_C10_recursion_terminates_witness :
    Uaux (fun _ => (0 : ℂ)) (fun _ => (0 : ℂ)) (fun _ => (0 : ℂ)) 2 7 0 =
      U (fun _ => (0 : ℂ)) (fun _ => (0 : ℂ)) (fun _ => (0 : ℂ)) 2 0 ∧
    Ucalls 2 7 0 = 2 - 1 - 0 :=
  claim_C10_recursion_terminates (fun _ => (0 : ℂ)) (fun _ => (0 : ℂ)) (fun _ => (0 : ℂ))
    2 0 7 (by decide) (by decide)

/-- C2: for polarisation p, every single-interface Fresnel coefficient
used by ReflectionCoeff is
(kz[p] n[p+1]^2 - kz[p+1] n[p]^2) / (kz[p] n[p+1]^2 + kz[p+1] n[p]^2),
at every interface, incidence angle and wavelength, and ReflectionCoeff
composes exactly these coefficients. -/
theorem claim_C2_p_fresnel (N : ℕ) (n : ℕ → ℂ) (d : ℕ → ℝ)
    (incidence_angle lbda : ℝ) (p : ℕ) :
    r_ab_p n (kz n incidence_angle lbda) p =
      (kz n incidence_angle lbda p * (n (p + 1)) ^ 2 -
          kz n incidence_angle lbda (p + 1) * (n p) ^ 2) /
        (kz n incidence_angle lbda p * (n (p + 1)) ^ 2 +
          kz n incidence_angle lbda (p + 1) * (n p) ^ 2) ∧
    ReflectionCoeff N n d incidence_angle lbda ("p") =
      some (U (r_ab_p n (kz n incidence_angle lbda)) (kz n incidence_angle lbda)
        (fun q => ((d q : ℝ) : ℂ)) N 0) :=
  ⟨rfl, rfl⟩

/-- C3: at a single interface (N = 1) the recursion collapses to the
plain two-medium Fresnel coefficient for s polarisation, at every
incidence angle and wavelength. -/
theorem claim_C3_single_interface (n : ℕ → ℂ) (d : ℕ → ℝ) (incidence_angle lbda : ℝ) :
    ReflectionCoeff 1 n d incidence_angle lbda ("s") =
      some ((kz n incidence_angle lbda 0 - kz n incidence_angle lbda 1) /
        (kz n incidence_angle lbda 0 + kz n incidence_angle lbda 1)) := by
  have hU : U (r_ab_s (kz n incidence_angle lbda)) (kz n incidence_angle lbda)
      (fun p => ((d p : ℝ) : ℂ)) 1 0 = r_ab_s (kz n incidence_angle lbda) 0 := rfl
  show some (U (r_ab_s (kz n incidence_angle lbda)) (kz n incidence_angle lbda)
      (fun p => ((d p : ℝ) : ℂ)) 1 0) = _
  rw [hU, r_ab_s, neg_sub]

/-- C9: a polarisation string other than s and p assigns no
single-interface coefficient array, so ReflectionCoeff produces no
result at all (the unhandled case escapes as a failure of the whole
evaluation). -/
theorem claim_C9_unhandled_polarisation (N : ℕ) (n : ℕ → ℂ) (d : ℕ → ℝ)
    (incidence_angle lbda : ℝ) (pol : String)
    (hs : pol ≠ "s") (hp : pol ≠ "p") :
    ReflectionCoeff N n d incidence_angle lbda pol = none := by
  simp [ReflectionCoeff, hs, hp]

/-- Witness for C9 at the polarisation string x. -/
theorem claim_C9_unhandled_polarisation_witness :
    ReflectionCoeff 9 (fun _ => (1 : ℂ)) (fun _ => (1 : ℝ)) 0 1550 ("x") = none :=
  claim_C9_unhandled_polarisation 9 (fun _ => (1 : ℂ)) (fun _ => (1 : ℝ)) 0 1550 ("x")
    (by decide) (by decide)

/-- C6: a method string other than graph and section makes drawStructure
return no axes handle (and, the embedding being total, no error). -/
theorem claim_C6_unknown_method (s : Structure) (lbda : ℝ) (unit method : String)
    (margin : ℝ) (h1 : method ≠ "graph") (h2 : method ≠ "section") :
    drawStructure s lbda unit method margin = none := by
  simp [drawStructure, h1, h2]

/-- Witness for C6 at the method string pie. -/
theorem claim_C6_unknown_method_witness :
    drawStructure bareStructure 1000 ("nm") ("pie") 0.15 = none :=
  claim_C6_unknown_method bareStructure 1000 ("nm") ("pie") 0.15 (by decide) (by decide)

/-- A structure without finite layers has the two half-space entries as
its whole permittivity profile. -/
theorem profile_of_no_layers (s : Structure) (lbda : ℝ) (unit : String)
    (h : s.numLayers = 0) :
    getPermittivityProfile s lbda unit =
      [((⊤ : EReal), s.frontHalfSpace.material.getTensor lbda unit),
       ((⊤ : EReal), s.backHalfSpace.material.getTensor lbda unit)] := by
  have hlen := layersProfile_length s lbda unit
  rw [h] at hlen
  have hnil : (s.layers.map (fun L => L.getPermittivityProfile lbda unit)).flatten = [] :=
    List.eq_nil_of_length_eq_zero hlen
  simp [getPermittivityProfile, hnil]

/-- A structure without finite layers has no finite thicknesses. -/
theorem finiteThicknesses_of_no_layers (s : Structure) (lbda : ℝ) (unit : String)
    (h : s.numLayers = 0) : finiteThicknesses s lbda unit = [] := by
  simp [finiteThicknesses, getIndexProfile, profile_of_no_layers s lbda unit h]

/-- The depth of the last interface is the total stack depth. -/
theorem zMax_eq_stackDepth (s : Structure) (lbda : ℝ) (unit : String) :
    zMax s lbda unit = stackDepth s lbda unit := by
  rw [zMax, zLayers, List.getLastD_cons, cumsumFrom_getLastD, stackDepth, zero_add]

/-- C7: with no finite layers the depth axis range is exactly
[-1e-6, 1e-6]; with positive total depth D the margin substituted is
0.15 D, placed on each side of the stack (the depth coordinates start at
-0.15 D and end at D + 0.15 D). -/
theorem claim_C7_margin_rule (s : Structure) (lbda : ℝ) (unit : String) :
    (s.numLayers = 0 →
      Option.map Axes.xlim (drawStructure s lbda unit ("graph") 0.15) =
        some ((-(1e-6) : ℝ), (1e-6 : ℝ))) ∧
    (0 < stackDepth s lbda unit →
      zMarginOf 0.15 (zMax s lbda unit) = 0.15 * stackDepth s lbda unit ∧
      (zCoordinates s lbda unit 0.15).head? =
        some (-(0.15 * stackDepth s lbda unit)) ∧
      (zCoordinates s lbda unit 0.15).getLast? =
        some (stackDepth s lbda unit + 0.15 * stackDepth s lbda unit)) := by
  constructor
  · intro h0
    have hfin : finiteThicknesses s lbda unit = [] :=
      finiteThicknesses_of_no_layers s lbda unit h0
    have hmax : zMax s lbda unit = 0 := by
      rw [zMax, zLayers, hfin]
      rfl
    have hmarg : zMarginOf 0.15 (zMax s lbda unit) = 1e-6 := by
      rw [hmax, zMarginOf, if_neg (by simp)]
    have hzc : zCoordinates s lbda unit 0.15 = [-(1e-6 : ℝ), 0, 0 + 1e-6] := by
      rw [zCoordinates, hmarg, hmax, zLayers, hfin]
      rfl
    rw [show drawStructure s lbda unit ("graph") 0.15 =
      some (drawStructureGraph s (zCoordinates s lbda unit 0.15)
        ((getIndexProfile s lbda unit).map Prod.snd) unit) from rfl]
    rw [hzc]
    simp only [Option.map_some', drawStructureGraph]
    norm_num [npMin, npMax, min_def, max_def]
  · intro hD
    have hz : zMax s lbda unit = stackDepth s lbda unit := zMax_eq_stackDepth s lbda unit
    have hm : zMarginOf 0.15 (zMax s lbda unit) = 0.15 * stackDepth s lbda unit := by
      rw [zMarginOf, hz, if_pos hD.ne']
    refine ⟨hm, ?_, ?_⟩
    · rw [zCoordinates, hm]
      rfl
    · rw [zCoordinates, ← List.cons_append, List.getLast?_concat, hm, hz]

/-- Witness for C7 at a bare two-half-space structure and at a structure
with one finite layer of unit thickness. -/
theorem claim_C7_margin_rule_witness :
    Option.map Axes.xlim (drawStructure bareStructure 1000 ("nm") ("graph") 0.15) =
      some ((-(1e-6) : ℝ), (1e-6 : ℝ)) ∧
    (zMarginOf 0.15 (zMax oneLayerStructure 1000 ("nm")) =
        0.15 * stackDepth oneLayerStructure 1000 ("nm") ∧
      (zCoordinates oneLayerStructure 1000 ("nm") 0.15).head? =
        some (-(0.15 * stackDepth oneLayerStructure 1000 ("nm"))) ∧
      (zCoordinates oneLayerStructure 1000 ("nm") 0.15).getLast? =
        some (stackDepth oneLayerStructure 1000 ("nm") +
          0.15 * stackDepth oneLayerStructure 1000 ("nm"))) :=
  ⟨(claim_C7_margin_rule bareStructure 1000 ("nm")).1 (by rfl),
   (claim_C7_margin_rule oneLayerStructure 1000 ("nm")).2 (by
      have h1 : stackDepth oneLayerStructure 1000 ("nm") = 1 := by
        simp [stackDepth, finiteThicknesses, getIndexProfile, getPermittivityProfile,
          oneLayerStructure, LayerElement.getPermittivityProfile, Layer.profileEntry]
      rw [h1]
      norm_num)⟩

/-- C8 counterexample: in the comparison chart, the analytic series
R_th_ss_0 is plotted with x markers and not as a line, while the
solver series R_ss_0 is plotted as a line and not with markers; the
claimed styles are exactly the other way round. -/
theorem claim_C8_counterexample :
    SeriesPlot.mk ("lbda_list") ("R_th_ss_0") PlotStyle.markerX ∈ validationChartSeries ∧
    SeriesPlot.mk ("lbda_list") ("R_th_ss_0") PlotStyle.line ∉ validationChartSeries ∧
    SeriesPlot.mk ("lbda_list") ("R_ss_0") PlotStyle.line ∈ validationChartSeries ∧
    SeriesPlot.mk ("lbda_list") ("R_ss_0") PlotStyle.markerX ∉ validationChartSeries := by
  decide

/-- C8 (amended): every series of the comparison chart is plotted
against the wavelength sweep on the one chart, the three solver-derived
series as line plots and the three analytic series as x-marker
points. -/
theorem claim_C8_chart_series (sp : SeriesPlot) (hmem : sp ∈ validationChartSeries) :
    sp.x = "lbda_list" ∧
    sp.style =
      (if sp.y = "R_th_ss_0" ∨ sp.y = "R_th_ss" ∨ sp.y = "R_th_pp" then PlotStyle.markerX
       else PlotStyle.line) := by
  fin_cases hmem <;> exact ⟨rfl, by decide⟩

/-- Witness for C8 at the solver series R_ss_0. -/
theorem claim_C8_chart_series_witness :
    (SeriesPlot.mk ("lbda_list") ("R_ss_0") PlotStyle.line).x = "lbda_list" ∧
    (SeriesPlot.mk ("lbda_list") ("R_ss_0") PlotStyle.line).style =
      (if (SeriesPlot.mk ("lbda_list") ("R_ss_0") PlotStyle.line).y = "R_th_ss_0" ∨
          (SeriesPlot.mk ("lbda_list") ("R_ss_0") PlotStyle.line).y = "R_th_ss" ∨
          (SeriesPlot.mk ("lbda_list") ("R_ss_0") PlotStyle.line).y = "R_th_pp"
       then PlotStyle.markerX else PlotStyle.line) :=
  claim_C8_chart_series (SeriesPlot.mk ("lbda_list") ("R_ss_0") PlotStyle.line) (by decide)

end
